import Mathlib

/-!
Verification of the VoiceRAG-Lab appointment-booking backend.

This file shallowly embeds the string-processing, validation, slot-store and
tool-orchestration logic of the Python backend
(`apifunctions.py`, `booking_tools.py`, `rag_core.py`, `app.py`,
`ws_server.py`) as executable Lean definitions and proves properties of the
embedded code.  Machine-level concerns (HTTP transport, spreadsheet API,
the generative model service) are modelled as explicit parameters; all
definitions are computable so concrete runs can be checked by `decide`.
-/

namespace VoiceRag

/-! ## Generic character/string helpers

Python string operations used by the backend, modelled over `List Char`
(for scanning with word boundaries) and `String` (for whole-value
operations).  Python `str.lower` on the ASCII texts involved agrees with
`Char.toLower`. -/

/-- Lowercase a string character by character (Python `str.lower` on ASCII). -/
def lowerStr (s : String) : String := String.mk (s.toList.map Char.toLower)

/-- Python `str.strip()`: drop leading and trailing whitespace. -/
def trimStr (s : String) : String :=
  String.mk
    (((s.toList.dropWhile Char.isWhitespace).reverse.dropWhile
      Char.isWhitespace).reverse)

/-- Python `s.strip().lower()`. -/
def stripLower (s : String) : String := lowerStr (trimStr s)

/-- Lowercased character list of a string. -/
def lowerChars (s : String) : List Char := (lowerStr s).toList

/-- `startsWithSeq n h` is true when `n` is a prefix of `h` (Python slice test). -/
def startsWithSeq : List Char → List Char → Bool
  | [], _ => true
  | _ :: _, [] => false
  | a :: as, b :: bs => a == b && startsWithSeq as bs

/-- `containsSeq n h` models Python `n in h` (substring containment). -/
def containsSeq (n : List Char) : List Char → Bool
  | [] => startsWithSeq n []
  | c :: rest => startsWithSeq n (c :: rest) || containsSeq n rest

/-- Python regex word character `\w` for the ASCII texts involved. -/
def wordChar (c : Char) : Bool := c.isAlphanum || c == '_'

/-- Python `history[-n:]`: the last `n` entries of a list. -/
def lastN (n : Nat) (l : List α) : List α := l.drop (l.length - n)

/-! ## Calendar dates

`datetime.date` values are modelled as (year, month, day) triples of
naturals; comparison is lexicographic, exactly as for `datetime.date`. -/

/-- A calendar date (year, month, day). -/
structure Date where
  year : Nat
  month : Nat
  day : Nat
deriving DecidableEq, Repr

/-- Gregorian leap-year test (as used by `datetime`). -/
def isLeap (y : Nat) : Bool := y % 4 == 0 && (y % 100 != 0 || y % 400 == 0)

/-- Number of days in a month of a given year. -/
def daysInMonth (y m : Nat) : Nat :=
  if m == 2 then (if isLeap y then 29 else 28)
  else if m == 4 || m == 6 || m == 9 || m == 11 then 30
  else 31

/-- A date `datetime.date` would accept (`datetime` years run 1..9999). -/
def validDate (d : Date) : Bool :=
  1 ≤ d.year && d.year ≤ 9999 && 1 ≤ d.month && d.month ≤ 12 &&
    1 ≤ d.day && d.day ≤ daysInMonth d.year d.month

/-- `datetime.date` ordering (lexicographic on year, month, day). -/
def dateLt (a b : Date) : Bool :=
  a.year < b.year || (a.year == b.year &&
    (a.month < b.month || (a.month == b.month && a.day < b.day)))

/-- The day after a date (`timedelta(days=1)`). -/
def nextDay (d : Date) : Date :=
  if d.day < daysInMonth d.year d.month then ⟨d.year, d.month, d.day + 1⟩
  else if d.month < 12 then ⟨d.year, d.month + 1, 1⟩
  else ⟨d.year + 1, 1, 1⟩

/-- Add `n` days to a date. -/
def addDays (d : Date) : Nat → Date
  | 0 => d
  | n + 1 => nextDay (addDays d n)

/-- Left-pad the decimal representation of `n` with zeros to width `w`. -/
def padNat (w n : Nat) : String :=
  let s := toString n
  String.mk (List.replicate (w - s.length) '0') ++ s

/-- `date.isoformat()` / `strftime("%Y-%m-%d")`. -/
def isoDate (d : Date) : String :=
  padNat 4 d.year ++ "-" ++ padNat 2 d.month ++ "-" ++ padNat 2 d.day

end VoiceRag

namespace VoiceRag.apifunctions

/-! ## `apifunctions.py` — the spreadsheet-backed slot store

The Google-Sheet worksheet is modelled as its `get_all_values` matrix: a
header row (`headers`) and the data rows below it, each a list of cell
strings (gspread yields `""`/`None` for blank cells; both are modelled as
`""`, which is exactly the set of falsy cell values the code tests). -/

/-- The worksheet contents: header row plus data rows. -/
structure Sheet where
  headers : List String
  rows : List (List String)
deriving DecidableEq, Repr

/-- The eight expected time columns (`TIME_COLUMNS`). -/
def TIME_COLUMNS : List String :=
  ["9:00 AM", "10:00 AM", "11:00 AM", "12:00 PM", "1:00 PM", "2:00 PM",
   "3:00 PM", "4:00 PM"]

/-- `row.get(time)` on a `get_all_records` row: `none` when the column is
absent from the headers, otherwise the cell value (blank cells are `""`). -/
def cellValue (headers row : List String) (col : String) : Option String :=
  match headers.indexOf? col with
  | none => none
  | some i => some (row.getD i "")

/-- One record of the JSON body returned by the slots GET endpoint. -/
structure GetRecord where
  date : String := ""
  time : String := ""
  status : String := ""
  message : String := ""
deriving DecidableEq, Repr

/-- The data rows whose `Date` column (at header index `di`) equals `date`
(`df[df['Date'] == date]`). -/
def rowsFor (sheet : Sheet) (di : Nat) (date : String) : List (List String) :=
  sheet.rows.filter (fun r => r.getD di "" == date)

/-- The `Available` slot records collected by the loop in
`get_available_slots`: a cell is available when its value is falsy
(missing column or `""`); a `suday` cell is skipped; an occupied cell is
also skipped (the loop appends nothing for it). -/
def availableRecords (sheet : Sheet) (di : Nat) (date : String) :
    List GetRecord :=
  (rowsFor sheet di date).flatMap (fun r =>
    TIME_COLUMNS.filterMap (fun t =>
      match cellValue sheet.headers r t with
      | none => some { date := date, time := t, status := "Available" }
      | some v =>
        if v == "" then some { date := date, time := t, status := "Available" }
        else none))

/-- `apifunctions.get_available_slots`: the JSON list served for a date.
A missing `Date` header raises `KeyError` inside the `try`, which the
handler converts to a single `Error` record. -/
def get_available_slots (sheet : Sheet) (date : String) : List GetRecord :=
  match sheet.headers.indexOf? "Date" with
  | none => [{ status := "Error", message := "KeyError: Date" }]
  | some di =>
    if rowsFor sheet di date == [] then
      [{ status := "No schedule found for this date." }]
    else
      let avail := availableRecords sheet di date
      if avail == [] then
        [{ status := "No available slots found on " ++ date ++ "." }]
      else avail

/-- Result dictionary of `book_slot`. -/
structure BookResult where
  status : String
  message : String
  cell_updated : Option String := none
deriving DecidableEq, Repr

/-- `apifunctions.book_slot`: finds the row for `date` and the column for
`time`, refuses when the current cell is truthy and its stripped,
lowercased value is neither `suday` nor empty, and otherwise writes
`user_id` into the cell.  Returns the result record and the updated sheet. -/
def book_slot (sheet : Sheet) (date time user_id : String) :
    BookResult × Sheet :=
  match sheet.headers.indexOf? "Date" with
  | none => ({ status := "Error", message := "KeyError: Date" }, sheet)
  | some di =>
    match sheet.rows.findIdx? (fun r => r.getD di "" == date) with
    | none =>
      ({ status := "Error", message := "Date " ++ date ++ " not found." },
       sheet)
    | some i =>
      match sheet.headers.indexOf? time with
      | none =>
        ({ status := "Error",
           message := "Time slot " ++ time ++
             " not valid or header not found." }, sheet)
      | some ci =>
        let current := (sheet.rows.getD i []).getD ci ""
        if current != "" && stripLower current != "suday" &&
            stripLower current != "" then
          ({ status := "Error",
             message := "Slot already booked by " ++ current ++ "." }, sheet)
        else
          ({ status := "Success",
             message := "Slot booked successfully on " ++ date ++ " at " ++
               time ++ " for " ++ user_id ++ ".",
             cell_updated := some ("Row " ++ toString (i + 2) ++ ", Column " ++
               toString (ci + 1)) },
           { sheet with
             rows := sheet.rows.set i ((sheet.rows.getD i []).set ci user_id) })

end VoiceRag.apifunctions

namespace VoiceRag.booking_tools

open VoiceRag

/-! ## `booking_tools.py` — validation and the HTTP tool executor

The executor talks to the slot store over HTTP.  The transport is a
parameter (`ExecEnv`): for each base URL it yields either a simulated
`requests` exception or a response (status code, raw text, parsed JSON
body).  Every attempted request is recorded in the returned call trace, so
"no store call is made" is the statement that the trace is empty. -/

/-- `valid_times` of `validate_booking_params`. -/
def valid_times : List String :=
  ["9:00 AM", "10:00 AM", "11:00 AM", "12:00 PM", "1:00 PM", "2:00 PM",
   "3:00 PM", "4:00 PM"]

/-- Ten-character `YYYY-MM-DD` shape: four digits, dash, two digits, dash,
two digits. -/
def isoShapeL : List Char → Bool
  | [a, b, c, d, h1, e, f, h2, g, h] =>
    [a, b, c, d, e, f, g, h].all Char.isDigit && h1 == '-' && h2 == '-'
  | _ => false

def isoShape (s : String) : Bool := isoShapeL s.toList

/-- Python `re.match(r'^\d{4}-\d{2}-\d{2}$', s)`: anchored at the start,
and `$` also matches just before one trailing newline. -/
def reMatchIsoDate (s : String) : Bool :=
  isoShape s || (s.toList.getLast? == some '\n' &&
    isoShape (String.mk s.toList.dropLast))

/-- Numeric value of a digit list (the lists involved are all-digit). -/
def digitsToNat (l : List Char) : Nat :=
  l.foldl (fun acc c => acc * 10 + (c.toNat - '0'.toNat)) 0

/-- Parse an exact `YYYY-MM-DD` character list into a calendar-valid date. -/
def isoParse : List Char → Option Date
  | [a, b, c, d, h1, e, f, h2, g, h] =>
    if [a, b, c, d, e, f, g, h].all Char.isDigit && h1 == '-' && h2 == '-'
    then
      let dt : Date :=
        ⟨digitsToNat [a, b, c, d], digitsToNat [e, f], digitsToNat [g, h]⟩
      if validDate dt then some dt else none
    else none
  | _ => none

/-- `datetime.strptime(s, '%Y-%m-%d').date()`: `none` models the
`ValueError` raised on a malformed or out-of-range date (including any
trailing characters, which strptime rejects as unconverted data). -/
def strptimeDate (s : String) : Option Date := isoParse s.toList

/-- Outcome of `validate_booking_params`. -/
structure BTValidation where
  valid : Bool
  errors : List String
deriving DecidableEq, Repr

/-- The date-related entries of the `errors` list. -/
def dateErrors (today : Date) (date : String) : List String :=
  if reMatchIsoDate date == false then ["Date must be in YYYY-MM-DD format"]
  else
    match strptimeDate date with
    | none => ["Invalid date provided"]
    | some bd =>
      if dateLt bd today then ["Cannot book appointments in the past"]
      else []

/-- The time-related entries of the `errors` list.  `if time:` means a
missing or empty time is not checked at all. -/
def timeErrors (time : Option String) : List String :=
  match time with
  | none => []
  | some t =>
    if t == "" then []
    else if valid_times.contains t then []
    else ["Invalid time slot. Available: " ++
      String.intercalate ", " valid_times]

/-- `validate_booking_params(date, time)`.  `today` is the process-local
`datetime.now().date()`.  A `none` date models Python `None`, on which
`re.match` raises `TypeError`; the error propagates out of the function,
modelled by the `Except.error` branch. -/
def validate_booking_params (today : Date) (date : Option String)
    (time : Option String) : Except String BTValidation :=
  match date with
  | none => .error "expected string or bytes-like object"
  | some d =>
    let errors := dateErrors today d ++ timeErrors time
    .ok { valid := errors.isEmpty, errors := errors }

/-- A tool result dictionary (`status`/`message`, plus the slot list for
`get_available_slots` and the parsed booking payload for bookings). -/
structure PostBody where
  status : String := ""
  message : Option String := none
  error : Option String := none
deriving DecidableEq, Repr

structure ToolResult where
  status : String
  message : String
  available_slots : List String := []
  booking_details : Option PostBody := none
deriving DecidableEq, Repr

/-- One recorded HTTP request to the slot store. -/
inductive StoreCall
  | get (base date : String)
  | post (base date time user_id : String)
deriving DecidableEq, Repr

/-- Result of one simulated `requests` call: an exception (with `str(e)`)
or a response carrying status code, raw text, and parsed JSON body. -/
inductive GetOutcome
  | exc (msg : String)
  | resp (code : Nat) (text : String) (body : List apifunctions.GetRecord)
deriving Repr

inductive PostOutcome
  | exc (msg : String)
  | resp (code : Nat) (text : String) (body : PostBody)
deriving Repr

/-- The HTTP transport seen by the executor. -/
structure ExecEnv where
  bases : List String
  getSlots : String → String → GetOutcome
  postSlot : String → String → String → String → PostOutcome

/-- `self.api_base_urls` as assembled by `__init__` from a configured base. -/
def mkBases (base : String) : List String :=
  [base, "http://127.0.0.1:5200", "http://localhost:5200"]

/-- The base-URL loop of `BookingToolExecutor.get_available_slots`. -/
def getSlotsLoop (env : ExecEnv) (date : String) :
    List String → Option String → ToolResult × List StoreCall
  | [], lastErr =>
    ({ status := "error",
       message := "Failed to get slots: " ++ lastErr.getD "Unknown error",
       available_slots := [] }, [])
  | b :: rest, _lastErr =>
    match env.getSlots b date with
    | .exc m =>
      let (r, cs) := getSlotsLoop env date rest (some m)
      (r, .get b date :: cs)
    | .resp code text body =>
      if code == 200 then
        let avail := (body.filter (fun s => s.status == "Available")).map
          (fun s => s.time)
        if avail.isEmpty then
          ({ status := "no_slots", available_slots := [],
             message := "No available slots found for " ++ date },
           [.get b date])
        else
          ({ status := "success", available_slots := avail,
             message := "Available slots on " ++ date ++ ": " ++
               String.intercalate ", " avail }, [.get b date])
      else
        let (r, cs) := getSlotsLoop env date rest (some text)
        (r, .get b date :: cs)

/-- `BookingToolExecutor.get_available_slots(date)`. -/
def executor_get_available_slots (env : ExecEnv) (date : String) :
    ToolResult × List StoreCall :=
  getSlotsLoop env date env.bases none

/-- The base-URL loop of `BookingToolExecutor.book_appointment_slot`. -/
def bookSlotLoop (env : ExecEnv) (date time user_id : String) :
    List String → Option String → ToolResult × List StoreCall
  | [], lastErr =>
    ({ status := "error",
       message := "❌ Booking failed: " ++ lastErr.getD "Unknown error" }, [])
  | b :: rest, _lastErr =>
    match env.postSlot b date time user_id with
    | .exc m =>
      let (r, cs) := bookSlotLoop env date time user_id rest (some m)
      (r, .post b date time user_id :: cs)
    | .resp code text body =>
      if code == 200 || code == 201 ||
          [ "success", "ok", "booked" ].contains (lowerStr body.status) then
        ({ status := "success",
           message :=
             match body.message with
             | some m => if m == "" then
                 "✅ Appointment confirmed for " ++ time ++ " on " ++ date
               else m
             | none =>
                 "✅ Appointment confirmed for " ++ time ++ " on " ++ date,
           booking_details := some body }, [.post b date time user_id])
      else if code == 409 then
        ({ status := "already_booked",
           message := "❌ Sorry, the " ++ time ++ " slot on " ++ date ++
             " is already booked" }, [.post b date time user_id])
      else
        let nextErr :=
          match body.error with
          | some e => if e == "" then some text else some e
          | none => some text
        let (r, cs) := bookSlotLoop env date time user_id rest nextErr
        (r, .post b date time user_id :: cs)

/-- `BookingToolExecutor.book_appointment_slot(date, time, user_id)`. -/
def executor_book_appointment_slot (env : ExecEnv)
    (date time user_id : String) : ToolResult × List StoreCall :=
  bookSlotLoop env date time user_id env.bases none

/-- Keyword arguments passed to `safe_execute` (each `kwargs.get` defaults
to `None`, modelled as `none`). -/
structure Kwargs where
  date : Option String := none
  time : Option String := none
  user_id : Option String := none
deriving DecidableEq, Repr

/-- Python `not kwargs.get("user_id") or len(kwargs.get("user_id")) < 3`. -/
def userIdFalsyOrShort : Option String → Bool
  | none => true
  | some u => u == "" || u.length < 3

/-- The `execution_error` record produced by the outer `except` handler. -/
def execErr (e : String) : ToolResult :=
  { status := "execution_error",
    message := "❌ Function execution failed: " ++ e }

/-- The `validation_error` record. -/
def valErrResult (v : BTValidation) : ToolResult :=
  { status := "validation_error",
    message := "❌ Validation failed: " ++
      String.intercalate "; " v.errors }

/-- Exception text of the dynamic dispatch `getattr(self, name)(**kwargs)`
for a `name` that is not an attribute of the executor: the
`AttributeError` raised by `getattr` is caught by the outer handler. -/
def dispatchFailureText (name : String) : String :=
  "\x27BookingToolExecutor\x27 object has no attribute \x27" ++ name ++ "\x27"

/-- Does `getattr(self, name)` succeed on the executor?  Its attributes
are exactly the four class-level names, the `api_base_urls` instance
field, and the names inherited from `object` — every one of the latter
is underscore-prefixed (`__init__`, `__str__`, `__class__`, ...), so this
test over-approximates them by the leading underscore; a name rejected by
this test is certainly no attribute, and `getattr` raises
`AttributeError` on it. -/
def executorHasAttr (name : String) : Bool :=
  ["api_base_urls", "get_available_slots", "book_appointment_slot",
   "safe_execute"].contains name || startsWithSeq ['_'] name.toList

/-- Placeholder for the outcome of dispatching a non-tool name that *is*
an attribute of the executor (`api_base_urls`, `safe_execute` itself, or
an `object`-inherited name).  Most such calls raise `TypeError` (a list
is not callable, `safe_execute` lacks its positional argument) and are
wrapped by the handler, but some succeed and return a value that is not
a status record at all — `safe_execute("__str__")` returns a plain
string — which this result type cannot represent.  The value below is
therefore an explicit unmodelled marker: no theorem in this file refers
to it.  (The empty call trace is faithful: none of these attributes
performs a store request.) -/
def pyNonToolAttrResult (name : String) : ToolResult :=
  { status := "unmodelled non-tool attribute dispatch", message := name }

/-- `TypeError` text for a booking dispatch with a missing `time` kwarg. -/
def missingTimeText : String :=
  "BookingToolExecutor.book_appointment_slot() missing 1 required positional argument: \x27time\x27"

/-- `TypeError` text for unexpected keyword arguments. -/
def unexpectedKwargText : String :=
  "got an unexpected keyword argument"

/-- `BookingToolExecutor.safe_execute(function_name, **kwargs)`: validates,
then dynamically dispatches; every raised exception is converted to an
`execution_error` result by the outer handler.  Returns the result and the
trace of store calls made. -/
def safe_execute (env : ExecEnv) (today : Date) (function_name : String)
    (kw : Kwargs) : ToolResult × List StoreCall :=
  if function_name == "get_available_slots" then
    match validate_booking_params today kw.date none with
    | .error e => (execErr e, [])
    | .ok v =>
      if v.valid == false then (valErrResult v, [])
      else
        match kw.date, kw.time, kw.user_id with
        | some d, none, none => executor_get_available_slots env d
        | _, _, _ => (execErr unexpectedKwargText, [])
  else if function_name == "book_appointment_slot" then
    match validate_booking_params today kw.date kw.time with
    | .error e => (execErr e, [])
    | .ok v =>
      if v.valid == false then (valErrResult v, [])
      else if userIdFalsyOrShort kw.user_id then
        ({ status := "validation_error",
           message := "❌ User ID must be at least 3 characters long" }, [])
      else
        match kw.date, kw.time, kw.user_id with
        | some d, some t, some u => executor_book_appointment_slot env d t u
        | some _, none, some _ => (execErr missingTimeText, [])
        | _, _, _ => (execErr unexpectedKwargText, [])
  else if executorHasAttr function_name then
    (pyNonToolAttrResult function_name, [])
  else (execErr (dispatchFailureText function_name), [])

end VoiceRag.booking_tools

namespace VoiceRag.appointment_routes

open VoiceRag VoiceRag.booking_tools

/-! ## `appointment_routes.py` — the Flask surface over the sheet store

`sheetEnv sheet` is the executor transport obtained when every base URL is
served by this app over a fixed worksheet: GET runs
`apifunctions.get_available_slots` (always HTTP 200, or 400 when the
`date` query parameter is falsy), POST runs `apifunctions.book_slot`
(201 on success, 409 when the message says already booked, else 500).
The raw `response.text` (a JSON dump, used by the executor only inside
consolidated error messages) is abbreviated to the result message. -/

def sheetEnv (sheet : apifunctions.Sheet) : ExecEnv where
  bases := mkBases "http://127.0.0.1:5200"
  getSlots := fun _ date =>
    if date == "" then
      .resp 400 "Missing \x27date\x27 query parameter." []
    else .resp 200 "" (apifunctions.get_available_slots sheet date)
  postSlot := fun _ date time user_id =>
    if date == "" || time == "" || user_id == "" then
      .resp 400 "Missing required fields in body." { }
    else
      let r := (apifunctions.book_slot sheet date time user_id).1
      if r.status == "Error" then
        if containsSeq "already booked".toList (lowerChars r.message) then
          .resp 409 r.message { status := r.status, message := some r.message }
        else
          .resp 500 r.message { status := r.status, message := some r.message }
      else
        .resp 201 r.message { status := r.status, message := some r.message }

end VoiceRag.appointment_routes

namespace VoiceRag.rag_core

open VoiceRag VoiceRag.booking_tools

/-! ## `rag_core.py` — argument normalization and tool orchestration -/

/-- The inner `normalize_date` of `RagBot.execute_tool_call`: only the
exact (stripped, lowercased) strings `today` and `tomorrow` are mapped to
ISO dates; any other value — including `day after tomorrow` — is returned
unchanged.  `none` models a non-string (`None`) argument, which the
`isinstance` guard passes through. -/
def normalize_date (today : Date) : Option String → Option String
  | none => none
  | some s =>
    let v := stripLower s
    if v == "today" then some (isoDate today)
    else if v == "tomorrow" then some (isoDate (addDays today 1))
    else some s

/-- The lookup table of the inner `normalize_time` (Python dict, keyed by
the stripped, lowercased, space-free form). -/
def timeMapping : List (String × String) :=
  [("9:00am", "9:00 AM"), ("10:00am", "10:00 AM"), ("11:00am", "11:00 AM"),
   ("12:00pm", "12:00 PM"), ("1:00pm", "1:00 PM"), ("2:00pm", "2:00 PM"),
   ("3:00pm", "3:00 PM"), ("4:00pm", "4:00 PM"),
   ("9am", "9:00 AM"), ("10am", "10:00 AM"), ("11am", "11:00 AM"),
   ("12pm", "12:00 PM"), ("1pm", "1:00 PM"), ("2pm", "2:00 PM"),
   ("3pm", "3:00 PM"), ("4pm", "4:00 PM"),
   ("09:00", "9:00 AM"), ("10:00", "10:00 AM"), ("11:00", "11:00 AM"),
   ("12:00", "12:00 PM"), ("13:00", "1:00 PM"), ("14:00", "2:00 PM"),
   ("15:00", "3:00 PM"), ("16:00", "4:00 PM")]

/-- The hour strings generated by the regex group `(0?[1-9]|1[0-6])`. -/
def hourGroupStrings : List String :=
  ["1", "2", "3", "4", "5", "6", "7", "8", "9",
   "01", "02", "03", "04", "05", "06", "07", "08", "09",
   "10", "11", "12", "13", "14", "15", "16"]

/-- Full match of `^(0?[1-9]|1[0-6]):00(pm|am)$` against `v`, returning
the captured hour string and uppercased suffix. -/
def parseHourMatch (v : String) : Option (String × String) :=
  hourGroupStrings.findSome? (fun hh =>
    if v == hh ++ ":00am" then some (hh, "AM")
    else if v == hh ++ ":00pm" then some (hh, "PM")
    else none)

/-- The inner `normalize_time` of `RagBot.execute_tool_call`: strip,
lowercase and delete spaces, look the result up in the table, and fall
back to the `hh:00am/pm` regex with its hand-written hour dispatch;
anything unrecognized is returned unchanged. -/
def normalize_time : Option String → Option String
  | none => none
  | some s =>
    let v := String.mk ((stripLower s).toList.filter (fun c => c != ' '))
    match timeMapping.find? (fun p => p.1 == v) with
    | some p => some p.2
    | none =>
      match parseHourMatch v with
      | none => some s
      | some (hh, suffix) =>
        if suffix == "AM" then
          if hh == "09" || hh == "9" then some "9:00 AM"
          else if hh == "10" then some "10:00 AM"
          else if hh == "11" then some "11:00 AM"
          else some s
        else
          if hh == "12" then some "12:00 PM"
          else if hh == "13" || hh == "1" then some "1:00 PM"
          else if hh == "14" || hh == "2" then some "2:00 PM"
          else if hh == "15" || hh == "3" then some "3:00 PM"
          else if hh == "16" || hh == "4" then some "4:00 PM"
          else some s

/-- A function-call directive produced by the generation service. -/
structure FunctionCall where
  name : String
  args : Kwargs
deriving DecidableEq, Repr

/-- The mutable `RagBot` state relevant to tool calls. -/
structure RagState where
  last_slots_date : Option String := none
deriving DecidableEq, Repr

/-- Python truthiness of an optional string. -/
def optTruthy : Option String → Bool
  | none => false
  | some s => s != ""

/-- `RagBot.execute_tool_call`: dispatches a function call through
`safe_execute`, normalizing the date and time arguments; a slot lookup
also records its normalized date in `last_slots_date` (when truthy), and
a booking whose date argument is falsy falls back to that remembered
date.  Returns the tool result with its store-call trace, and the updated
state. -/
def execute_tool_call (env : ExecEnv) (today : Date) (st : RagState)
    (fc : FunctionCall) : (ToolResult × List StoreCall) × RagState :=
  if fc.name == "get_available_slots" then
    let result := safe_execute env today "get_available_slots"
      { date := normalize_date today fc.args.date }
    let d := normalize_date today fc.args.date
    (result, if optTruthy d then { last_slots_date := d } else st)
  else if fc.name == "book_appointment_slot" then
    let inferred :=
      if optTruthy fc.args.date then fc.args.date else st.last_slots_date
    (safe_execute env today "book_appointment_slot"
      { date := normalize_date today inferred,
        time := normalize_time fc.args.time,
        user_id := fc.args.user_id }, st)
  else
    (({ status := "error", message := "Unknown function: " ++ fc.name }, []),
     st)

/-- One part of a generation-service response.  The vendor part type
always carries a `function_call` attribute (possibly `None`), so
`hasattr(part, 'function_call')` is true for every part. -/
structure GenPart where
  text : Option String := none
  function_call : Option FunctionCall := none
deriving DecidableEq, Repr

/-- A generation-service response: the parts of each candidate, plus the
top-level `text` convenience attribute. -/
structure ModelResponse where
  candidates : List (List GenPart) := []
  text : Option String := none
deriving DecidableEq, Repr

/-- The dictionary returned by `generate_response_with_tools`. -/
structure OrchResult where
  response : String
  tool_used : Option String := none
  tool_result : Option ToolResult := none
  mode : String
deriving DecidableEq, Repr

def apologyText : String :=
  "I\x27m sorry, I couldn\x27t generate a response."

def errorApologyText : String :=
  "I apologize, but I encountered an error processing your request. Please try again."

/-- The defensive probe for text in `response.candidates[0].content.parts[0]`. -/
def probeParts (resp : ModelResponse) : Option String :=
  match resp.candidates with
  | (p :: _) :: _ => p.text
  | _ => none

/-- `model_text` extraction of the no-tool branch: `response.text`, then
the candidate probe, then the apology fallback (Python `or` treats `""`
as missing). -/
def regularText (resp : ModelResponse) : String :=
  let probed : Option String :=
    match resp.text with
    | some t => if t == "" then probeParts resp else some t
    | none => probeParts resp
  match probed with
  | some t => if t == "" then apologyText else t
  | none => apologyText

/-- `RagBot.generate_response_with_tools`, from the first generation call
onward (the direct-booking pre-check over the raw message has fallen
through; `executeTool` stands for `self.execute_tool_call` and `first`
for the first-phase response).  The loop over the first candidate's parts
fires on the very first part, since every part has the `function_call`
attribute: a part whose `function_call` is `None` raises
`AttributeError` inside `execute_tool_call`, which the enclosing handler
converts to the apology result with mode `error`.  When a tool does run,
a second generation call is made but its wording is discarded: the
surfaced reply is the tool's own message (the success-path `re.sub`
cleanup references an undefined name and is skipped by its `except`
handler), with the default texts substituted when the message is falsy. -/
def generate_response_with_tools
    (executeTool : FunctionCall → ToolResult) (first : ModelResponse) :
    OrchResult :=
  match first.candidates with
  | (p :: _) :: _ =>
    match p.function_call with
    | some fc =>
      let r := executeTool fc
      { response :=
          if r.status == "success" then
            (if r.message == "" then "Appointment updated." else r.message)
          else
            (if r.message == "" then "There was a problem with your request."
             else r.message),
        tool_used := some fc.name,
        tool_result := some r,
        mode := "tool_calling" }
    | none => { response := errorApologyText, mode := "error" }
  | _ => { response := regularText first, mode := "regular" }

end VoiceRag.rag_core

namespace VoiceRag.app

open VoiceRag

/-! ## `app.py` / `ws_server.py` — relative-date normalization and the
intent router

`normalize_relative_dates` performs three `re.sub` passes with
case-insensitive whole-word patterns, longest phrase first:
`\bday\s+after\s+tomorrow\b`, then `\btomorrow\b`, then `\btoday\b`.
The scanner below models `re.sub`: left-to-right, non-overlapping, with
`\b` evaluated against the original text (the character preceding a
later match is the last letter of the previously matched phrase, a word
character). -/

/-- Case-insensitive literal match of a lowercase pattern against the
head of the input; returns the remainder on success. -/
def matchLitCI : List Char → List Char → Option (List Char)
  | [], l => some l
  | _ :: _, [] => none
  | p :: ps, c :: cs => if p == c.toLower then matchLitCI ps cs else none

/-- Match a phrase given as words separated by `\s+` (greedy; no
backtracking is needed since each word starts with a letter). -/
def matchPhrase : List (List Char) → List Char → Option (List Char)
  | [], l => some l
  | w :: ws, l =>
    match matchLitCI w l with
    | none => none
    | some rest =>
      match ws with
      | [] => some rest
      | _ :: _ =>
        match rest with
        | [] => none
        | c :: cs =>
          if c.isWhitespace then
            matchPhrase ws (cs.dropWhile Char.isWhitespace)
          else none

/-- Match `phrase\b` at the head of the input (the leading `\b` is the
scanner's job).  The phrases end in a letter, so the trailing `\b` holds
exactly when the remainder starts with a non-word character or is empty. -/
def phraseAt (words : List (List Char)) (l : List Char) :
    Option (List Char) :=
  match matchPhrase words l with
  | none => none
  | some rest =>
    match rest with
    | [] => some rest
    | c :: _ => if wordChar c then none else some rest

/-- The `re.sub` scanner: `prevW` records whether the previous original
character is a word character (false at the start of the string); a match
is attempted only at a `\b` position.  The fuel is the input length,
which bounds the number of steps since every step consumes at least one
character. -/
def reSubScan (words : List (List Char)) (repl : List Char) :
    Nat → Bool → List Char → List Char
  | 0, _, l => l
  | _ + 1, _, [] => []
  | n + 1, prevW, c :: rest =>
    if prevW then c :: reSubScan words repl n (wordChar c) rest
    else
      match phraseAt words (c :: rest) with
      | some rem => repl ++ reSubScan words repl n true rem
      | none => c :: reSubScan words repl n (wordChar c) rest

/-- One `re.sub(pattern, repl, text, flags=re.IGNORECASE)` pass for a
whole-word phrase pattern. -/
def reSubPhrase (words : List String) (repl : String) (text : String) :
    String :=
  String.mk (reSubScan (words.map (fun w => w.toList)) repl.toList
    text.toList.length false text.toList)

/-- Does a phrase occur (at a `\b` position, with trailing `\b`) anywhere
in the text?  `reSubScan` rewrites the text iff this is true. -/
def occursAux (words : List (List Char)) : Bool → List Char → Bool
  | _, [] => false
  | prevW, c :: rest =>
    (!prevW && (phraseAt words (c :: rest)).isSome) ||
      occursAux words (wordChar c) rest

def phraseOccurs (words : List String) (text : String) : Bool :=
  occursAux (words.map (fun w => w.toList)) false text.toList

/-- Does any of the three relative-date rules match somewhere in the text? -/
def relDateRuleMatches (text : String) : Bool :=
  phraseOccurs ["day", "after", "tomorrow"] text ||
    phraseOccurs ["tomorrow"] text || phraseOccurs ["today"] text

/-- `normalize_relative_dates` (identical in `app.py` and
`ws_server.py`): replace longer phrases first so that
`day after tomorrow` is consumed atomically before the `tomorrow` rule
runs. -/
def normalize_relative_dates (today : Date) (text : String) : String :=
  if text == "" then text
  else
    reSubPhrase ["today"] (isoDate today)
      (reSubPhrase ["tomorrow"] (isoDate (addDays today 1))
        (reSubPhrase ["day", "after", "tomorrow"]
          (isoDate (addDays today 2)) text))

/-! ### The intent router of `chat_with_rag` / `ws_handler` -/

/-- One conversation turn as the router reads it (`(msg or {}).get`
defaults missing fields to `""`). -/
structure HistMsg where
  role : String := ""
  text : String := ""
deriving DecidableEq, Repr

def booking_keywords : List String :=
  ["book", "appointment", "schedule", "slot", "service", "wash"]

def context_keywords : List String :=
  ["slot", "slots", "appointment", "book", "schedule", "service", "wash"]

/-- `\d{4}-\d{2}-\d{2}\b` at the head of the input (the leading `\b` is
the scanner's job; the trailing `\b` needs a non-word successor). -/
def isoAt : List Char → Bool
  | a :: b :: c :: d :: h1 :: e :: f :: h2 :: g :: h :: rest =>
    [a, b, c, d, e, f, g, h].all Char.isDigit && h1 == '-' && h2 == '-' &&
      (match rest with
       | [] => true
       | r :: _ => !wordChar r)
  | _ => false

/-- `re.search(r"\b\d{4}-\d{2}-\d{2}\b", text)`. -/
def isoSearch (prevW : Bool) : List Char → Bool
  | [] => false
  | c :: rest => (!prevW && isoAt (c :: rest)) || isoSearch (wordChar c) rest

/-- `contains_iso_date` (the router lowercases its input first; digits are
unaffected). -/
def contains_iso_date (l : List Char) : Bool := isoSearch false l

/-- `contains_relative_date`: plain substring containment of the three
phrases. -/
def contains_relative_date (l : List Char) : Bool :=
  ["today", "tomorrow", "day after tomorrow"].any
    (fun p => containsSeq p.toList l)

/-- `has_booking_context`: a model-role turn among the last three history
entries mentioning a context keyword. -/
def has_booking_context (history : List HistMsg) : Bool :=
  (lastN 3 history).any (fun m =>
    m.role == "model" && context_keywords.any
      (fun k => containsSeq k.toList (lowerChars m.text)))

/-- `history_contains_date`: a date reference among the last five history
entries. -/
def history_contains_date (history : List HistMsg) : Bool :=
  (lastN 5 history).any (fun m =>
    contains_iso_date (lowerChars m.text) ||
      contains_relative_date (lowerChars m.text))

/-- `booking_intent` over the (already relative-date-normalized) message. -/
def booking_intent (msg : String) (history : List HistMsg) : Bool :=
  booking_keywords.any (fun k => containsSeq k.toList (lowerChars msg)) ||
    has_booking_context history

/-- `has_date` over the lowercased message. -/
def has_date (msg : String) (history : List HistMsg) : Bool :=
  contains_iso_date (lowerChars msg) ||
    contains_relative_date (lowerChars msg) ||
      history_contains_date history

/-- `enable_tools = booking_intent and has_date`: the intent router. -/
def should_enable_tools (msg : String) (history : List HistMsg) : Bool :=
  booking_intent msg history && has_date msg history

end VoiceRag.app

namespace VoiceRag

open VoiceRag.booking_tools

/-! ## Concrete fixtures used by witnesses and counterexamples -/

/-- A reference current date used for concrete runs. -/
def today0 : Date := ⟨2026, 10, 12⟩

/-- A transport in which every endpoint is unreachable (pure
`RequestException`); used where the store must not matter. -/
def envNull : ExecEnv :=
  { bases := mkBases "http://127.0.0.1:5200",
    getSlots := fun _ _ => .exc "connection refused",
    postSlot := fun _ _ _ _ => .exc "connection refused",
  }

/-- A transport whose POST endpoint confirms every booking with 201. -/
def envAccepts : ExecEnv :=
  { bases := mkBases "http://127.0.0.1:5200",
    getSlots := fun _ _ => .exc "connection refused",
    postSlot := fun _ _ _ _ =>
      .resp 201 "" { status := "Success", message := some "ok" },
  }

/-- A worksheet whose 9:00 AM cell on 2025-11-13 holds the blackout
marker (in mixed case). -/
def blackoutSheet : apifunctions.Sheet :=
  ⟨["Date", "9:00 AM"], [["2025-11-13", "SuDay"]]⟩

/-- A worksheet with one occupied cell. -/
def occupiedSheet : apifunctions.Sheet :=
  ⟨["Date", "9:00 AM"], [["2025-11-13", "Taha-9999"]]⟩

/-- A worksheet with the full header row and no data rows. -/
def emptySheet : apifunctions.Sheet :=
  ⟨["Date", "9:00 AM", "10:00 AM", "11:00 AM", "12:00 PM", "1:00 PM",
    "2:00 PM", "3:00 PM", "4:00 PM"], []⟩

/-- A worksheet whose single row for 2025-11-13 has every time cell
taken (occupied or blacked out). -/
def fullSheet : apifunctions.Sheet :=
  ⟨["Date", "9:00 AM", "10:00 AM", "11:00 AM", "12:00 PM", "1:00 PM",
    "2:00 PM", "3:00 PM", "4:00 PM"],
   [["2025-11-13", "u1", "u2", "u3", "suday", "u5", "u6", "u7", "u8"]]⟩

/-- A function call used in orchestrator runs. -/
def fcSlots : rag_core.FunctionCall :=
  ⟨"get_available_slots", { date := some "2025-11-15" }⟩

/-- A tool executor stub that always succeeds with a fixed message. -/
def execStub : rag_core.FunctionCall → ToolResult :=
  fun _ => { status := "success",
             message := "Available slots on 2025-11-15: 9:00 AM" }

/-- A first-phase response whose first part is plain text and whose
second part carries the function call. -/
def respTextThenCall : rag_core.ModelResponse :=
  { candidates := [[{ text := some "Checking now." },
                    { function_call := some fcSlots }]] }

/-- A first-phase response whose first part carries the function call. -/
def respCallFirst : rag_core.ModelResponse :=
  { candidates := [[{ function_call := some fcSlots }]] }

/-! ## Helper lemmas -/

theorem startsWithSeq_append_left (n m h : List Char)
    (hc : startsWithSeq (n ++ m) h = true) : startsWithSeq n h = true := by
  induction n generalizing h with
  | nil => rfl
  | cons a as ih =>
    cases h with
    | nil => simp [startsWithSeq] at hc
    | cons b bs =>
      simp only [List.cons_append, startsWithSeq, Bool.and_eq_true] at hc ⊢
      exact ⟨hc.1, ih bs hc.2⟩

theorem containsSeq_append_left (n m h : List Char)
    (hc : containsSeq (n ++ m) h = true) : containsSeq n h = true := by
  induction h with
  | nil =>
    simp only [containsSeq] at hc ⊢
    exact startsWithSeq_append_left n m [] hc
  | cons c rest ih =>
    simp only [containsSeq, Bool.or_eq_true] at hc ⊢
    rcases hc with hc | hc
    · exact Or.inl (startsWithSeq_append_left n m _ hc)
    · exact Or.inr (ih hc)

theorem context_any_eq (t : List Char) :
    app.context_keywords.any (fun k => containsSeq k.toList t) =
      app.booking_keywords.any (fun k => containsSeq k.toList t) := by
  have hs : containsSeq "slots".toList t = true →
      containsSeq "slot".toList t = true := by
    intro h
    have he : ("slot".toList ++ ['s'] : List Char) = "slots".toList := by
      decide
    exact containsSeq_append_left _ _ _ (he ▸ h)
  rw [Bool.eq_iff_iff]
  simp only [app.context_keywords, app.booking_keywords, List.any_cons,
    List.any_nil, Bool.or_eq_true, Bool.or_false]
  constructor
  · rintro (h | h | h | h | h | h | h) <;> tauto
  · rintro (h | h | h | h | h | h) <;> tauto

theorem has_booking_context_eq (h : List app.HistMsg) :
    app.has_booking_context h = (lastN 3 h).any (fun e =>
      e.role == "model" && app.booking_keywords.any
        (fun k => containsSeq k.toList (lowerChars e.text))) := by
  unfold app.has_booking_context
  generalize lastN 3 h = l
  induction l with
  | nil => rfl
  | cons a rest ih => simp only [List.any_cons, ih, context_any_eq]

theorem isoParse_shape (l : List Char) (bd : Date)
    (h : isoParse l = some bd) : isoShapeL l = true := by
  unfold isoParse at h
  split at h
  · rename_i a b c d h1 e f h2 g hh
    unfold isoShapeL
    split at h
    · assumption
    · simp at h
  · simp at h

theorem strptime_shape (d : String) (bd : Date)
    (h : strptimeDate d = some bd) : reMatchIsoDate d = true := by
  unfold strptimeDate at h
  unfold reMatchIsoDate isoShape
  rw [isoParse_shape d.toList bd h]
  rfl

theorem isoDate_ne_empty (d : Date) : isoDate d ≠ "" := by
  intro h
  have hlen := congrArg String.length h
  have h1 : ("-" : String).length = 1 := rfl
  have h0 : ("" : String).length = 0 := rfl
  simp only [isoDate, String.length_append, h1, h0] at hlen
  omega

theorem normalize_date_truthy (today : Date) (d : String) (hd : d ≠ "") :
    rag_core.optTruthy (rag_core.normalize_date today (some d)) = true := by
  unfold rag_core.normalize_date rag_core.optTruthy
  by_cases h1 : (stripLower d == "today") = true
  · simp only [h1, if_true]
    simp [bne_iff_ne, isoDate_ne_empty]
  · simp only [Bool.not_eq_true] at h1
    by_cases h2 : (stripLower d == "tomorrow") = true
    · simp only [h1, h2, if_false, if_true]
      simp [bne_iff_ne, isoDate_ne_empty]
    · simp only [Bool.not_eq_true] at h2
      simp [h1, h2, bne_iff_ne, hd]

theorem reSubScan_no_occurs (words : List (List Char)) (repl : List Char) :
    ∀ (n : Nat) (prevW : Bool) (l : List Char),
      app.occursAux words prevW l = false →
      app.reSubScan words repl n prevW l = l := by
  intro n
  induction n with
  | zero => intro _ l _; rfl
  | succ k ih =>
    intro prevW l h
    cases l with
    | nil => rfl
    | cons c rest =>
      unfold app.occursAux at h
      rw [Bool.or_eq_false_iff] at h
      obtain ⟨h1, h2⟩ := h
      unfold app.reSubScan
      cases hp : prevW with
      | true => rw [if_pos rfl, ih _ _ h2]
      | false =>
        rw [hp] at h1
        simp only [Bool.not_false, Bool.true_and] at h1
        cases hph : app.phraseAt words (c :: rest) with
        | some v => rw [hph] at h1; simp at h1
        | none =>
          rw [if_neg Bool.false_ne_true]
          simp only [hph]
          rw [ih _ _ h2]

theorem reSubPhrase_no_occurs (words : List String) (repl text : String)
    (h : app.phraseOccurs words text = false) :
    app.reSubPhrase words repl text = text := by
  unfold app.reSubPhrase
  unfold app.phraseOccurs at h
  rw [reSubScan_no_occurs _ _ _ _ _ h]
  rfl

end VoiceRag

namespace VoiceRag

/-! ## Claim theorems -/

/-- C1 counterexample: on a sheet whose 9:00 AM cell for 2025-11-13 holds
the blackout marker `SuDay` (case-insensitively equal to the sentinel
`suday`), `book_slot` reports `Success` and overwrites the blackout cell
with the booking user id — the cell is not left unchanged. -/
theorem C1_counterexample :
    (apifunctions.book_slot blackoutSheet "2025-11-13" "9:00 AM"
      "user-123").1.status = "Success" ∧
    (apifunctions.book_slot blackoutSheet "2025-11-13" "9:00 AM"
      "user-123").2.rows = [["2025-11-13", "user-123"]] ∧
    (apifunctions.book_slot blackoutSheet "2025-11-13" "9:00 AM"
      "user-123").2 ≠ blackoutSheet := by
  decide

/-- C1 (amended): `book_slot` never overwrites an *occupied* cell — one
whose value is non-empty and whose stripped lowercase form is neither the
blackout sentinel `suday` nor empty: it returns the already-booked error
and leaves the sheet unchanged.  (A blackout cell, by contrast, is
treated as bookable and is overwritten — see the counterexample.) -/
theorem C1_occupied_cell_never_overwritten :
    ∀ (sheet : apifunctions.Sheet) (date time user_id : String)
      (di i ci : Nat),
      sheet.headers.indexOf? "Date" = some di →
      sheet.rows.findIdx? (fun r => r.getD di "" == date) = some i →
      sheet.headers.indexOf? time = some ci →
      (sheet.rows.getD i []).getD ci "" ≠ "" →
      stripLower ((sheet.rows.getD i []).getD ci "") ≠ "suday" →
      stripLower ((sheet.rows.getD i []).getD ci "") ≠ "" →
      apifunctions.book_slot sheet date time user_id =
        ({ status := "Error",
           message := "Slot already booked by " ++
             (sheet.rows.getD i []).getD ci "" ++ "." }, sheet) := by
  intro sheet date time uid di i ci h1 h2 h3 h4 h5 h6
  unfold apifunctions.book_slot
  simp only [h1, h2, h3]
  rw [if_pos]
  simp only [Bool.and_eq_true, bne_iff_ne]
  exact ⟨⟨h4, h5⟩, h6⟩

/-- C1 witness: a concrete occupied cell is protected. -/
theorem C1_witness :
    apifunctions.book_slot occupiedSheet "2025-11-13" "9:00 AM" "new-user" =
      ({ status := "Error",
         message := "Slot already booked by " ++
           (occupiedSheet.rows.getD 0 []).getD 1 "" ++ "." },
       occupiedSheet) :=
  C1_occupied_cell_never_overwritten occupiedSheet "2025-11-13" "9:00 AM"
    "new-user" 0 0 1 (by decide) (by decide) (by decide) (by decide)
    (by decide) (by decide)

/-- C6: `normalize_time` round-trips each of the eight canonical labels to
itself, and `4pm`, `16:00` and `4:00 PM` all normalize to `4:00 PM`. -/
theorem C6_normalize_time_roundtrip_and_examples :
    rag_core.normalize_time (some "9:00 AM") = some "9:00 AM" ∧
    rag_core.normalize_time (some "10:00 AM") = some "10:00 AM" ∧
    rag_core.normalize_time (some "11:00 AM") = some "11:00 AM" ∧
    rag_core.normalize_time (some "12:00 PM") = some "12:00 PM" ∧
    rag_core.normalize_time (some "1:00 PM") = some "1:00 PM" ∧
    rag_core.normalize_time (some "2:00 PM") = some "2:00 PM" ∧
    rag_core.normalize_time (some "3:00 PM") = some "3:00 PM" ∧
    rag_core.normalize_time (some "4:00 PM") = some "4:00 PM" ∧
    rag_core.normalize_time (some "4pm") = some "4:00 PM" ∧
    rag_core.normalize_time (some "16:00") = some "4:00 PM" ∧
    rag_core.normalize_time (some "4:00 PM") = some "4:00 PM" := by
  decide

/-- C10: calling `safe_execute` for either tool with the `date` keyword
absent (`None`) yields an `execution_error` — the `TypeError` raised by
`re.match` on `None` inside `validate_booking_params` is caught by the
outer handler — not a `validation_error`, and the store is not called. -/
theorem C10_missing_date_execution_error :
    ∀ (env : booking_tools.ExecEnv) (today : Date) (name : String)
      (kw : booking_tools.Kwargs),
      (name = "get_available_slots" ∨ name = "book_appointment_slot") →
      kw.date = none →
      (booking_tools.safe_execute env today name kw).1.status =
        "execution_error" ∧
      (booking_tools.safe_execute env today name kw).1.status ≠
        "validation_error" ∧
      (booking_tools.safe_execute env today name kw).2 = [] := by
  intro env today name kw hname hdate
  rcases hname with h | h <;> subst h <;>
    simp +decide [booking_tools.safe_execute,
      booking_tools.validate_booking_params, hdate, booking_tools.execErr]

/-- C10 witness: the slot lookup with no date argument. -/
theorem C10_witness :
    (booking_tools.safe_execute envNull today0 "get_available_slots"
      {}).1.status = "execution_error" ∧
    (booking_tools.safe_execute envNull today0 "get_available_slots"
      {}).1.status ≠ "validation_error" ∧
    (booking_tools.safe_execute envNull today0 "get_available_slots"
      {}).2 = [] :=
  C10_missing_date_execution_error envNull today0 "get_available_slots" {}
    (Or.inl rfl) rfl

end VoiceRag

namespace VoiceRag

/-- C2: the intent router enables tools iff (a booking keyword occurs in
the lowercased message, or a model-role turn among the last three history
entries contains a booking-context keyword) and (the message contains an
ISO date pattern, or a relative date word, or one of the last five
history entries contains a date); in particular the refund question with
no date is routed without tools and the wash-tomorrow request with
tools. -/
theorem C2_should_enable_tools_iff :
    (∀ (m : String) (h : List app.HistMsg),
      app.should_enable_tools m h = true ↔
        ((["book", "appointment", "schedule", "slot", "service",
            "wash"].any (fun k => containsSeq k.toList (lowerChars m)) =
              true ∨
          (lastN 3 h).any (fun e => e.role == "model" &&
            ["book", "appointment", "schedule", "slot", "service",
              "wash"].any
              (fun k => containsSeq k.toList (lowerChars e.text))) =
                true) ∧
         (app.contains_iso_date (lowerChars m) = true ∨
          app.contains_relative_date (lowerChars m) = true ∨
          (lastN 5 h).any (fun e =>
            app.contains_iso_date (lowerChars e.text) ||
              app.contains_relative_date (lowerChars e.text)) = true))) ∧
    app.should_enable_tools "What is your refund policy?" [] = false ∧
    app.should_enable_tools "Can I book a wash tomorrow?" [] = true := by
  refine ⟨fun m h => ?_, by decide, by decide⟩
  unfold app.should_enable_tools app.booking_intent app.has_date
    app.history_contains_date
  rw [has_booking_context_eq]
  simp only [app.booking_keywords, Bool.and_eq_true, Bool.or_eq_true]
  tauto

/-- C5 counterexample: `normalize_date` (the argument normalizer in
`rag_core.execute_tool_call`) does not map `day after tomorrow` to the
current date + 2 days: it returns the phrase unchanged. -/
theorem C5_counterexample :
    rag_core.normalize_date today0 (some "day after tomorrow") =
      some "day after tomorrow" ∧
    rag_core.normalize_date today0 (some "day after tomorrow") ≠
      some (isoDate (addDays today0 2)) := by
  decide

/-- C5 (amended): `rag_core.normalize_date` maps only the exact stripped,
lowercased strings `today` and `tomorrow` (to the current date and the
current date + 1 day) and returns every other value — including
`day after tomorrow` — unchanged; the whole-word substitution with
longest-phrase precedence described by the claim is implemented by
`normalize_relative_dates` (in `app.py` / `ws_server.py`), which rewrites
`day after tomorrow` atomically (never into `day after <tomorrow>`),
matches case-insensitively on whole words only, and returns any text
matching no rule unchanged. -/
theorem C5_normalize_date_phrase_precedence :
    (∀ (today : Date) (s : String), stripLower s = "today" →
      rag_core.normalize_date today (some s) = some (isoDate today)) ∧
    (∀ (today : Date) (s : String), stripLower s = "tomorrow" →
      rag_core.normalize_date today (some s) =
        some (isoDate (addDays today 1))) ∧
    (∀ (today : Date) (s : String), stripLower s ≠ "today" →
      stripLower s ≠ "tomorrow" →
      rag_core.normalize_date today (some s) = some s) ∧
    app.normalize_relative_dates today0 "day after tomorrow" =
      "2026-10-14" ∧
    app.normalize_relative_dates today0 "day after tomorrow" ≠
      "day after 2026-10-13" ∧
    app.normalize_relative_dates today0 "Day  AFTER tomorrow now" =
      "2026-10-14 now" ∧
    app.normalize_relative_dates today0 "tomorrowland" = "tomorrowland" ∧
    (∀ (today : Date) (text : String),
      app.relDateRuleMatches text = false →
      app.normalize_relative_dates today text = text) := by
  refine ⟨?_, ?_, ?_, by decide, by decide, by decide, by decide, ?_⟩
  · intro today s hs
    unfold rag_core.normalize_date
    simp [hs]
  · intro today s hs
    unfold rag_core.normalize_date
    simp [hs]
  · intro today s h1 h2
    unfold rag_core.normalize_date
    simp [beq_iff_eq, h1, h2]
  · intro today text h
    unfold app.relDateRuleMatches at h
    rw [Bool.or_eq_false_iff, Bool.or_eq_false_iff] at h
    obtain ⟨⟨hdaw, htom⟩, htod⟩ := h
    unfold app.normalize_relative_dates
    rw [reSubPhrase_no_occurs _ _ _ hdaw, reSubPhrase_no_occurs _ _ _ htom,
      reSubPhrase_no_occurs _ _ _ htod]
    split <;> rfl

/-- C5 witness: concrete instances of each quantified part. -/
theorem C5_witness :
    rag_core.normalize_date today0 (some " ToDay ") =
      some (isoDate today0) ∧
    rag_core.normalize_date today0 (some "Tomorrow") =
      some (isoDate (addDays today0 1)) ∧
    rag_core.normalize_date today0 (some "next week") = some "next week" ∧
    app.normalize_relative_dates today0 "hello there" = "hello there" :=
  ⟨C5_normalize_date_phrase_precedence.1 today0 " ToDay " (by decide),
   C5_normalize_date_phrase_precedence.2.1 today0 "Tomorrow" (by decide),
   C5_normalize_date_phrase_precedence.2.2.1 today0 "next week" (by decide)
     (by decide),
   C5_normalize_date_phrase_precedence.2.2.2.2.2.2.2 today0 "hello there"
     (by decide)⟩

end VoiceRag

namespace VoiceRag

open VoiceRag.booking_tools

theorem dateErrors_of_bad_format (today : Date) (d : String)
    (h : reMatchIsoDate d = false) :
    dateErrors today d = ["Date must be in YYYY-MM-DD format"] := by
  unfold booking_tools.dateErrors
  rw [h]
  simp

theorem dateErrors_of_past (today : Date) (d : String) (bd : Date)
    (hsp : strptimeDate d = some bd) (hlt : dateLt bd today = true) :
    dateErrors today d = ["Cannot book appointments in the past"] := by
  unfold booking_tools.dateErrors
  rw [strptime_shape d bd hsp]
  simp [hsp, hlt]

theorem timeErrors_of_invalid (t : String) (h1 : t ≠ "")
    (h2 : valid_times.contains t = false) :
    timeErrors (some t) = ["Invalid time slot. Available: " ++
      String.intercalate ", " valid_times] := by
  unfold booking_tools.timeErrors
  simp only []
  rw [if_neg (by simp only [beq_iff_eq]; exact h1), h2, if_neg (by simp)]

/-- First iteration of the executor's base-URL loop when the first base
answers 200 with a body containing no `Available` record. -/
theorem getSlotsLoop_no_avail (env : ExecEnv) (date b : String)
    (rest : List String) (lastErr : Option String)
    (body : List apifunctions.GetRecord)
    (h : env.getSlots b date = .resp 200 "" body)
    (hav : (body.filter (fun s => s.status == "Available")).map
      (fun s => s.time) = []) :
    getSlotsLoop env date (b :: rest) lastErr =
      ({ status := "no_slots", available_slots := [],
         message := "No available slots found for " ++ date },
       [.get b date]) := by
  unfold booking_tools.getSlotsLoop
  rw [h]
  simp only []
  rw [if_pos (by decide)]
  simp [hav]

end VoiceRag

namespace VoiceRag

open VoiceRag.booking_tools

/-- C3 counterexample: a valid future date and user id with the *empty
string* as time — which is not one of the 8 canonical labels — is not
rejected: `if time:` skips the time check for a falsy value, so the
result is not a validation error and the store is contacted. -/
theorem C3_counterexample :
    (safe_execute envAccepts today0 "book_appointment_slot"
      { date := some "2026-12-01", time := some "",
        user_id := some "abc" }).1.status ≠ "validation_error" ∧
    (safe_execute envAccepts today0 "book_appointment_slot"
      { date := some "2026-12-01", time := some "",
        user_id := some "abc" }).2 ≠ [] := by
  decide

/-- C3 (amended): `safe_execute("book_appointment_slot", ...)` returns
`validation_error` and makes no store call whenever the date fails the
`^\d{4}-\d{2}-\d{2}$` format, or parses to a date strictly before the
current date, or the time is a *non-empty* string outside the 8 canonical
labels, or the user id is shorter than 3 characters (an *empty* time
string bypasses the time check — see the counterexample). -/
theorem C3_validation_rejects_before_store :
    ∀ (env : ExecEnv) (today : Date) (d t u : String),
      (reMatchIsoDate d = false ∨
       (∃ bd, strptimeDate d = some bd ∧ dateLt bd today = true) ∨
       (t ≠ "" ∧ valid_times.contains t = false) ∨
       u.length < 3) →
      (safe_execute env today "book_appointment_slot"
        { date := some d, time := some t, user_id := some u }).1.status =
          "validation_error" ∧
      (safe_execute env today "book_appointment_slot"
        { date := some d, time := some t, user_id := some u }).2 = [] := by
  intro env today d t u hcond
  unfold booking_tools.safe_execute
  rw [if_neg (by decide), if_pos (by decide)]
  unfold booking_tools.validate_booking_params
  simp only []
  by_cases hE :
      (dateErrors today d ++ timeErrors (some t)).isEmpty = true
  · have hu : u.length < 3 := by
      rcases hcond with hfmt | ⟨bd, hsp, hlt⟩ | ⟨ht1, ht2⟩ | hu
      · rw [dateErrors_of_bad_format today d hfmt] at hE
        simp at hE
      · rw [dateErrors_of_past today d bd hsp hlt] at hE
        simp at hE
      · rw [timeErrors_of_invalid t ht1 ht2] at hE
        rw [List.isEmpty_iff, List.append_eq_nil] at hE
        simp at hE
      · exact hu
    rw [hE, if_neg (by decide), if_pos (by
      simp [booking_tools.userIdFalsyOrShort, hu])]
    exact ⟨rfl, rfl⟩
  · rw [Bool.not_eq_true] at hE
    rw [hE, if_pos (by decide)]
    exact ⟨rfl, rfl⟩

/-- C3 witness: the claim's own instance — past date, non-canonical time
label, two-character user id — is rejected without a store call. -/
theorem C3_witness :
    ("14:00" ≠ "" ∧ valid_times.contains "14:00" = false) ∧
    (safe_execute envNull today0 "book_appointment_slot"
      { date := some "2024-01-01", time := some "14:00",
        user_id := some "ab" }).1.status = "validation_error" ∧
    (safe_execute envNull today0 "book_appointment_slot"
      { date := some "2024-01-01", time := some "14:00",
        user_id := some "ab" }).2 = [] :=
  ⟨⟨by decide, by decide⟩,
   C3_validation_rejects_before_store envNull today0 "2024-01-01" "14:00"
     "ab" (Or.inr (Or.inr (Or.inl ⟨by decide, by decide⟩)))⟩

end VoiceRag

namespace VoiceRag

open VoiceRag.booking_tools

/-- C4 counterexample: for a date with no row in the store the tool
executor reports `no_slots`, not `no_schedule` — the executor has no
`no_schedule` outcome at all. -/
theorem C4_counterexample :
    (executor_get_available_slots (appointment_routes.sheetEnv emptySheet)
      "2025-11-13").1.status = "no_slots" ∧
    (executor_get_available_slots (appointment_routes.sheetEnv emptySheet)
      "2025-11-13").1.status ≠ "no_schedule" := by
  decide

/-- C4 (amended): the two empty outcomes are *not* distinguished by the
tool executor: whether the store has no row for the date (the server
answers with its no-schedule informational record, which contains no
`Available` entry) or a row exists but yields zero available slots, the
executor returns the structured `no_slots` result with its informational
message — no exception and no bare empty sequence. -/
theorem C4_empty_outcomes_collapse :
    ∀ (sheet : apifunctions.Sheet) (date : String) (di : Nat),
      date ≠ "" →
      sheet.headers.indexOf? "Date" = some di →
      (apifunctions.rowsFor sheet di date = [] ∨
        (apifunctions.rowsFor sheet di date ≠ [] ∧
          apifunctions.availableRecords sheet di date = [])) →
      (executor_get_available_slots (appointment_routes.sheetEnv sheet)
        date).1.status = "no_slots" ∧
      (executor_get_available_slots (appointment_routes.sheetEnv sheet)
        date).1.message = "No available slots found for " ++ date := by
  intro sheet date di hd hdi hcase
  have hbase : (appointment_routes.sheetEnv sheet).getSlots
      "http://127.0.0.1:5200" date =
      .resp 200 "" (apifunctions.get_available_slots sheet date) := by
    unfold appointment_routes.sheetEnv
    simp only []
    rw [if_neg (by simp only [beq_iff_eq]; exact hd)]
  have hfilter : ((apifunctions.get_available_slots sheet date).filter
      (fun s => s.status == "Available")).map (fun s => s.time) = [] := by
    rcases hcase with hrows | ⟨hrne, hav⟩
    · have hbody : apifunctions.get_available_slots sheet date =
          [{ status := "No schedule found for this date." }] := by
        unfold apifunctions.get_available_slots
        rw [hdi]
        simp only []
        rw [if_pos (by simp [hrows])]
      rw [hbody]
      decide
    · have hbody : apifunctions.get_available_slots sheet date =
          [{ status := "No available slots found on " ++ date ++ "." }] := by
        unfold apifunctions.get_available_slots
        rw [hdi]
        simp only []
        rw [if_neg (by simp only [beq_iff_eq]; exact hrne)]
        simp [hav]
      rw [hbody]
      have hne : ("No available slots found on " ++ date ++ "." : String) ≠
          "Available" := by
        intro hq
        have hlen := congrArg String.length hq
        have e1 : ("No available slots found on " : String).length = 28 := rfl
        have e2 : ("." : String).length = 1 := rfl
        have e3 : ("Available" : String).length = 9 := rfl
        rw [String.length_append, String.length_append, e1, e2, e3] at hlen
        omega
      simp [hne]
  have hloop := getSlotsLoop_no_avail (appointment_routes.sheetEnv sheet)
    date "http://127.0.0.1:5200"
    ["http://127.0.0.1:5200", "http://localhost:5200"] none
    (apifunctions.get_available_slots sheet date) hbase hfilter
  unfold booking_tools.executor_get_available_slots
  rw [show (appointment_routes.sheetEnv sheet).bases =
    "http://127.0.0.1:5200" ::
      ["http://127.0.0.1:5200", "http://localhost:5200"] from rfl]
  rw [hloop]
  exact ⟨rfl, rfl⟩

/-- C4 witness: the no-row sheet and the fully-taken sheet both collapse
to the `no_slots` outcome. -/
theorem C4_witness :
    ((executor_get_available_slots (appointment_routes.sheetEnv emptySheet)
        "2025-11-13").1.status = "no_slots" ∧
      (executor_get_available_slots
        (appointment_routes.sheetEnv emptySheet) "2025-11-13").1.message =
        "No available slots found for " ++ "2025-11-13") ∧
    ((executor_get_available_slots (appointment_routes.sheetEnv fullSheet)
        "2025-11-13").1.status = "no_slots" ∧
      (executor_get_available_slots
        (appointment_routes.sheetEnv fullSheet) "2025-11-13").1.message =
        "No available slots found for " ++ "2025-11-13") :=
  ⟨C4_empty_outcomes_collapse emptySheet "2025-11-13" 0 (by decide)
    (by decide) (Or.inl (by decide)),
   C4_empty_outcomes_collapse fullSheet "2025-11-13" 0 (by decide)
    (by decide) (Or.inr ⟨by decide, by decide⟩)⟩

end VoiceRag

namespace VoiceRag

open VoiceRag.booking_tools

/-- C7 counterexample: a first-phase response that *does* contain a
function-call directive — but in its second part, after a plain-text
part — is not answered with the tool's message: the loop fires on the
text part (every part has the `function_call` attribute), the `None`
directive raises inside `execute_tool_call`, and the handler returns the
apology with mode `error` instead of `tool_calling`. -/
theorem C7_counterexample :
    (rag_core.generate_response_with_tools execStub
      respTextThenCall).mode = "error" ∧
    (rag_core.generate_response_with_tools execStub
      respTextThenCall).mode ≠ "tool_calling" ∧
    (rag_core.generate_response_with_tools execStub
      respTextThenCall).response ≠ (execStub fcSlots).message := by
  decide

/-- C7 (amended): whenever the *first* part of the first-phase response
carries the function-call directive, the user-visible reply is the Tool
Executor's own (non-empty) message — on status `success` and on any
failed execution alike — with mode `tool_calling` and the tool result
attached, never a fault; a directive preceded by a plain-text part
instead produces the apology with mode `error` (see the counterexample). -/
theorem C7_tool_message_surfaced :
    ∀ (executeTool : rag_core.FunctionCall → ToolResult)
      (first : rag_core.ModelResponse) (fc : rag_core.FunctionCall)
      (p : rag_core.GenPart) (ps : List rag_core.GenPart)
      (cs : List (List rag_core.GenPart)),
      first.candidates = (p :: ps) :: cs →
      p.function_call = some fc →
      (executeTool fc).message ≠ "" →
      (rag_core.generate_response_with_tools executeTool first).response =
        (executeTool fc).message ∧
      (rag_core.generate_response_with_tools executeTool first).mode =
        "tool_calling" ∧
      (rag_core.generate_response_with_tools executeTool first).tool_used =
        some fc.name ∧
      (rag_core.generate_response_with_tools executeTool
        first).tool_result = some (executeTool fc) := by
  intro et first fc p ps cs hc hp hm
  unfold rag_core.generate_response_with_tools
  rw [hc]
  simp only [hp]
  by_cases hst : ((et fc).status == "success") = true <;>
    simp [hst, beq_iff_eq, hm]

/-- C7 witness: a response whose first part is the directive surfaces the
stub executor's message. -/
theorem C7_witness :
    (rag_core.generate_response_with_tools execStub
      respCallFirst).response = (execStub fcSlots).message ∧
    (rag_core.generate_response_with_tools execStub
      respCallFirst).mode = "tool_calling" ∧
    (rag_core.generate_response_with_tools execStub
      respCallFirst).tool_used = some fcSlots.name ∧
    (rag_core.generate_response_with_tools execStub
      respCallFirst).tool_result = some (execStub fcSlots) :=
  C7_tool_message_surfaced execStub respCallFirst fcSlots
    { function_call := some fcSlots } [] [] rfl rfl (by decide)

/-- C8 counterexample: for the unknown function name `foo`,
`safe_execute` does return status `execution_error`, but its message is
the wrapped `AttributeError` text, not the literal `Unknown function`. -/
theorem C8_counterexample :
    (safe_execute envNull today0 "foo" {}).1.status = "execution_error" ∧
    (safe_execute envNull today0 "foo" {}).1.message ≠
      "Unknown function" ∧
    (safe_execute envNull today0 "foo" {}).1.message =
      "❌ Function execution failed: \x27BookingToolExecutor\x27 object has no attribute \x27foo\x27" := by
  decide

/-- C8 (amended): for every function name other than the two tools that
names *no attribute* of the executor — not one of its class-level names
or the `api_base_urls` field, and not underscore-prefixed like every
name inherited from `object` — `safe_execute` performs no store call and
returns status `execution_error`, whose message wraps the
`AttributeError` raised by the dynamic dispatch, not the literal
`Unknown function`.  (A name that *does* resolve to an inherited
attribute is dispatched like any Python call and may return a non-record
value — `safe_execute("__str__")` returns a plain string; and the
literal `Unknown function: <name>`, with status `error`, is produced by
the dispatcher `RagBot.execute_tool_call` instead.) -/
theorem C8_unknown_function_execution_error :
    ∀ (env : ExecEnv) (today : Date) (name : String) (kw : Kwargs),
      name ≠ "get_available_slots" →
      name ≠ "book_appointment_slot" →
      executorHasAttr name = false →
      (safe_execute env today name kw).1.status = "execution_error" ∧
      (safe_execute env today name kw).1.message =
        "❌ Function execution failed: " ++ dispatchFailureText name ∧
      (safe_execute env today name kw).2 = [] := by
  intro env today name kw h1 h2 h3
  unfold booking_tools.safe_execute
  rw [if_neg (by simp only [beq_iff_eq]; exact h1),
    if_neg (by simp only [beq_iff_eq]; exact h2),
    if_neg (by rw [h3]; exact Bool.false_ne_true)]
  exact ⟨rfl, rfl, rfl⟩

/-- C8 witness: the unknown name `foo` yields `execution_error` with the
wrapped `AttributeError` message and no store call. -/
theorem C8_witness :
    (safe_execute envNull today0 "foo" {}).1.status = "execution_error" ∧
    (safe_execute envNull today0 "foo" {}).1.message =
      "❌ Function execution failed: " ++ dispatchFailureText "foo" ∧
    (safe_execute envNull today0 "foo" {}).2 = [] :=
  C8_unknown_function_execution_error envNull today0 "foo" {}
    (by decide) (by decide) (by decide)

/-- C9: when the model's booking arguments omit the date (or pass the
empty string), `execute_tool_call` books with the remembered
`last_slots_date` (normalized again) and passes the `user_id` argument
through verbatim; and a slot lookup with a non-empty date records its
normalized date in `last_slots_date` while forwarding only the
normalized date to `safe_execute`. -/
theorem C9_book_date_inferred_from_last_lookup :
    (∀ (env : ExecEnv) (today : Date) (st : rag_core.RagState)
       (dOpt tOpt uOpt : Option String),
       (dOpt = none ∨ dOpt = some "") →
       rag_core.execute_tool_call env today st
         ⟨"book_appointment_slot", ⟨dOpt, tOpt, uOpt⟩⟩ =
         (safe_execute env today "book_appointment_slot"
           ⟨rag_core.normalize_date today st.last_slots_date,
            rag_core.normalize_time tOpt, uOpt⟩, st)) ∧
    (∀ (env : ExecEnv) (today : Date) (st : rag_core.RagState)
       (d : String) (tOpt uOpt : Option String),
       d ≠ "" →
       (rag_core.execute_tool_call env today st
         ⟨"get_available_slots", ⟨some d, tOpt, uOpt⟩⟩).2 =
         ⟨rag_core.normalize_date today (some d)⟩ ∧
       (rag_core.execute_tool_call env today st
         ⟨"get_available_slots", ⟨some d, tOpt, uOpt⟩⟩).1 =
         safe_execute env today "get_available_slots"
           ⟨rag_core.normalize_date today (some d), none, none⟩) := by
  constructor
  · intro env today st dOpt tOpt uOpt hd
    rcases hd with h | h <;> subst h <;>
      simp +decide [rag_core.execute_tool_call, rag_core.optTruthy]
  · intro env today st d tOpt uOpt hd
    refine ⟨?_, ?_⟩ <;>
      simp +decide [rag_core.execute_tool_call,
        normalize_date_truthy today d hd]

/-- C9 witness: a booking with no date argument reuses the date of the
previous lookup, and a lookup records its normalized date. -/
theorem C9_witness :
    (rag_core.execute_tool_call envNull today0 ⟨some "2026-12-01"⟩
      ⟨"book_appointment_slot", ⟨none, some "4pm", some "Taha-9999"⟩⟩ =
      (safe_execute envNull today0 "book_appointment_slot"
        ⟨rag_core.normalize_date today0
          (rag_core.RagState.mk (some "2026-12-01")).last_slots_date,
         rag_core.normalize_time (some "4pm"), some "Taha-9999"⟩,
       ⟨some "2026-12-01"⟩)) ∧
    ((rag_core.execute_tool_call envNull today0 ⟨none⟩
      ⟨"get_available_slots", ⟨some "tomorrow", none, none⟩⟩).2 =
      ⟨rag_core.normalize_date today0 (some "tomorrow")⟩ ∧
     (rag_core.execute_tool_call envNull today0 ⟨none⟩
      ⟨"get_available_slots", ⟨some "tomorrow", none, none⟩⟩).1 =
      safe_execute envNull today0 "get_available_slots"
        ⟨rag_core.normalize_date today0 (some "tomorrow"), none, none⟩) :=
  ⟨C9_book_date_inferred_from_last_lookup.1 envNull today0
    ⟨some "2026-12-01"⟩ none (some "4pm") (some "Taha-9999") (Or.inl rfl),
   C9_book_date_inferred_from_last_lookup.2 envNull today0 ⟨none⟩
    "tomorrow" none none (by decide)⟩

end VoiceRag
